import Mathlib

/-!
Verification development for the station-tracker repository.

Each definition is a shallow embedding of a function from the TypeScript
sources under `src/frontend/src`.  JavaScript numbers are modelled as exact
rationals (`ℚ`) or reals (`ℝ`, where trigonometry is involved); machine
floating point rounding is out of scope.  Stateful services are modelled by
explicit state records and step functions; external effects (HTTP calls,
`setTimeout`, the native geofence plugin) are modelled as inputs (outcome
oracles) and outputs (scheduled-call descriptions) of those step functions.
-/

namespace StationTracker

/-! ## Cloud sync service (`src/frontend/src/services/cloud-sync.service.ts`)

`CloudGeofenceEvent` mirrors the interface of the same name (optional
metadata fields that no logic reads are omitted).  `SyncState` carries the
service fields that the sync logic reads and writes: the durable
`pendingEvents` queue and the `syncErrors` / `totalEventsSynced` counters of
the `SyncStatus` subject (`lastSync`, a wall-clock `Date`, is not modelled).
-/

inductive CloudEventType where
  | enter
  | exit
deriving DecidableEq, Repr

structure CloudGeofenceEvent where
  stationId : ℕ
  stationName : String
  line : String
  eventType : CloudEventType
  latitude : ℚ
  longitude : ℚ
  deviceId : String
deriving DecidableEq, Repr

structure SyncState where
  pendingEvents : List CloudGeofenceEvent
  syncErrors : ℕ
  totalEventsSynced : ℕ
deriving DecidableEq, Repr

/-- `MAX_BATCH_SIZE` from `cloud-sync.service.ts`. -/
def MAX_BATCH_SIZE : ℕ := 50

/-- `SYNC_INTERVAL` (milliseconds) from `cloud-sync.service.ts`: the period
of the timer started by `startPeriodicSync`. -/
def SYNC_INTERVAL : ℕ := 30 * 1000

/-- A call that `performSync` hands to `setTimeout`.
`retryIfOnline d` models the failure-path callback, which re-runs
`performSync` after `d` milliseconds only if `navigator.onLine` reports
connectivity; `nextBatch d` models the success-path callback that runs the
next batch after `d` milliseconds unconditionally. -/
inductive ScheduledCall where
  | retryIfOnline (delayMs : ℕ)
  | nextBatch (delayMs : ℕ)
deriving DecidableEq, Repr

/-- Shallow embedding of `performSync`.  The HTTP round trip is modelled by
the `outcome` oracle (`success` iff the response had `success: true`; any
error, timeout or other response shape is `failure`).  Returns the new
service state together with the call passed to `setTimeout`, if any.

Source, `cloud-sync.service.ts` lines 103–171:
* empty queue: return immediately;
* `batchSize = min(MAX_BATCH_SIZE, pendingEvents.length)`, the batch is the
  prefix `pendingEvents.slice(0, batchSize)`;
* success: `splice(0, batchSize)` removes exactly that prefix,
  `totalEventsSynced += batchSize`,
  `syncErrors = Math.max(0, syncErrors - 1)`, and if events remain a next
  batch is scheduled after 1000 ms;
* failure: `syncErrors` is incremented, the queue is untouched, and one
  retry is scheduled after
  `Math.min(300000, Math.pow(2, currentStatus.syncErrors) * 1000)` ms,
  where `currentStatus` was captured on entry (before the increment). -/
def performSync (st : SyncState) (outcome : Bool) : SyncState × Option ScheduledCall :=
  if st.pendingEvents.length = 0 then (st, none)
  else
    let batchSize := min MAX_BATCH_SIZE st.pendingEvents.length
    if outcome then
      let remaining := st.pendingEvents.drop batchSize
      ({ pendingEvents := remaining
         syncErrors := st.syncErrors - 1
         totalEventsSynced := st.totalEventsSynced + batchSize },
       if remaining.length > 0 then some (.nextBatch 1000) else none)
    else
      ({ st with syncErrors := st.syncErrors + 1 },
       some (.retryIfOnline (min 300000 (2 ^ st.syncErrors * 1000))))

/-- Shallow embedding of the queue mutation performed by
`queueGeofenceEvent` (`cloud-sync.service.ts` lines 71–98): the converted
event is pushed onto the end of `pendingEvents`.  (The subsequent
opportunistic `performSync()` call is modelled separately.) -/
def queueGeofenceEvent (st : SyncState) (ev : CloudGeofenceEvent) : SyncState :=
  { st with pendingEvents := st.pendingEvents ++ [ev] }

/-- Enqueue a list of events in order. -/
def queueAll (st : SyncState) (evs : List CloudGeofenceEvent) : SyncState :=
  evs.foldl queueGeofenceEvent st

/-- Repeatedly run `performSync` with every batch confirmed successful,
until the queue is empty (the drain that the success-path `setTimeout`
chain produces when connectivity holds). -/
def drainSuccess (st : SyncState) : SyncState :=
  if h : st.pendingEvents = [] then st
  else
    have hpos : 0 < st.pendingEvents.length := List.length_pos.mpr h
    have hne : ¬ st.pendingEvents.length = 0 := by omega
    have hlen : ((performSync st true).1.pendingEvents).length < st.pendingEvents.length := by
      simp [performSync, MAX_BATCH_SIZE, hne]
      omega
    drainSuccess (performSync st true).1
termination_by st.pendingEvents.length

lemma performSync_success_eq (st : SyncState) (h : st.pendingEvents ≠ []) :
    performSync st true =
      ({ pendingEvents := st.pendingEvents.drop (min MAX_BATCH_SIZE st.pendingEvents.length)
         syncErrors := st.syncErrors - 1
         totalEventsSynced :=
           st.totalEventsSynced + min MAX_BATCH_SIZE st.pendingEvents.length },
       if (st.pendingEvents.drop (min MAX_BATCH_SIZE st.pendingEvents.length)).length > 0 then
         some (.nextBatch 1000)
       else none) := by
  have hne : ¬ st.pendingEvents.length = 0 := fun hh => h (List.length_eq_zero.mp hh)
  simp [performSync, hne]

lemma performSync_failure_eq (st : SyncState) (h : st.pendingEvents ≠ []) :
    performSync st false =
      ({ st with syncErrors := st.syncErrors + 1 },
       some (.retryIfOnline (min 300000 (2 ^ st.syncErrors * 1000)))) := by
  have hne : ¬ st.pendingEvents.length = 0 := fun hh => h (List.length_eq_zero.mp hh)
  simp [performSync, hne]

lemma queueAll_eq (st : SyncState) (evs : List CloudGeofenceEvent) :
    queueAll st evs =
      { st with pendingEvents := st.pendingEvents ++ evs } := by
  induction evs generalizing st with
  | nil => simp [queueAll]
  | cons e es ih =>
      simp only [queueAll, List.foldl_cons] at *
      rw [ih]
      simp [queueGeofenceEvent]

lemma drainSuccess_spec_aux :
    ∀ (n : ℕ) (st : SyncState), st.pendingEvents.length ≤ n →
      (drainSuccess st).pendingEvents = [] ∧
      (drainSuccess st).totalEventsSynced =
        st.totalEventsSynced + st.pendingEvents.length := by
  intro n
  induction n with
  | zero =>
      intro st hle
      have hnil : st.pendingEvents = [] := by
        simpa using List.length_eq_zero.mp (Nat.le_zero.mp hle)
      rw [drainSuccess]
      simp [hnil]
  | succ n ih =>
      intro st hle
      rw [drainSuccess]
      by_cases h : st.pendingEvents = []
      · simp [h]
      · simp only [dif_neg h]
        have hpos : 0 < st.pendingEvents.length := List.length_pos.mpr h
        have h1 := performSync_success_eq st h
        have hpend : (performSync st true).1.pendingEvents =
            st.pendingEvents.drop (min MAX_BATCH_SIZE st.pendingEvents.length) := by
          rw [h1]
        have htot : (performSync st true).1.totalEventsSynced =
            st.totalEventsSynced + min MAX_BATCH_SIZE st.pendingEvents.length := by
          rw [h1]
        have hminpos : 0 < min MAX_BATCH_SIZE st.pendingEvents.length := by
          simp [MAX_BATCH_SIZE]; omega
        have hlen : (performSync st true).1.pendingEvents.length ≤ n := by
          rw [hpend, List.length_drop]
          omega
        obtain ⟨ihp, iht⟩ := ih (performSync st true).1 hlen
        refine ⟨ihp, ?_⟩
        rw [iht, htot, hpend, List.length_drop]
        omega

/-- Claim C3, delay as the claim words it (`Modelled from the spec`):
`min(300, 2^errorCount)` seconds, in milliseconds, where `errorCount` is
the error counter AFTER the failure has incremented it. -/
def claimedRetryDelayMs (errorsAfterFailure : ℕ) : ℕ :=
  min 300000 (2 ^ errorsAfterFailure * 1000)

/-- A concrete queued event used to instantiate witnesses. -/
def sampleEvent : CloudGeofenceEvent :=
  { stationId := 1, stationName := "Tokyo", line := "Yamanote",
    eventType := .enter, latitude := 35, longitude := 139, deviceId := "d0" }

/-- C3 (counterexample): from a state with one pending event and a zero
error counter, a failed flush leaves the error counter at 1 and schedules
the retry after `min(300000, 2^0·1000) = 1000` ms — computed from the error
count BEFORE the failure — whereas the claim's delay, computed from the
count after the failure, would be 2000 ms. -/
theorem performSync_failure_delay_counterexample :
    (performSync ⟨[sampleEvent], 0, 0⟩ false).2 = some (.retryIfOnline 1000) ∧
    (performSync ⟨[sampleEvent], 0, 0⟩ false).1.syncErrors = 1 ∧
    claimedRetryDelayMs 1 = 2000 ∧ (1000 : ℕ) ≠ 2000 := by
  refine ⟨?_, ?_, by norm_num [claimedRetryDelayMs], by norm_num⟩ <;>
    simp [performSync, MAX_BATCH_SIZE]

/-- C3 (amended): when a flush over a non-empty queue fails, the queue is
left unchanged (same list, no removal or reordering), the synced-total is
unchanged, the error counter is incremented by exactly one, and exactly one
retry is scheduled — executed only while connectivity is reported
available — with delay `min(300, 2^(errorCount−1))` seconds, where
`errorCount` is the error counter after the failure (i.e. the exponent is
the pre-failure count). -/
theorem performSync_failure_spec (st : SyncState) (h : st.pendingEvents ≠ []) :
    (performSync st false).1.pendingEvents = st.pendingEvents ∧
    (performSync st false).1.totalEventsSynced = st.totalEventsSynced ∧
    (performSync st false).1.syncErrors = st.syncErrors + 1 ∧
    (performSync st false).2 =
      some (.retryIfOnline
        (min 300000 (2 ^ ((performSync st false).1.syncErrors - 1) * 1000))) := by
  rw [performSync_failure_eq st h]
  simp

/-- Witness for `performSync_failure_spec` at a concrete one-event state. -/
theorem performSync_failure_spec_witness :
    (performSync ⟨[sampleEvent], 2, 7⟩ false).1.syncErrors = 2 + 1 :=
  (performSync_failure_spec ⟨[sampleEvent], 2, 7⟩ (by simp)).2.2.1

/-- C4: enqueuing `N` events onto an empty queue and then flushing with
every batch confirmed successful empties the queue and increases the
synced-total by exactly `N`; each successful batch removes exactly the
batch prefix of at most `MAX_BATCH_SIZE = 50` events, and when events
remain after a successful batch the next flush is scheduled after 1000 ms,
strictly sooner than the 30-second periodic tick. -/
theorem syncQueue_drain_spec (st : SyncState) (evs : List CloudGeofenceEvent)
    (h : st.pendingEvents = []) :
    (drainSuccess (queueAll st evs)).pendingEvents = [] ∧
    (drainSuccess (queueAll st evs)).totalEventsSynced =
      st.totalEventsSynced + evs.length ∧
    (∀ st' : SyncState, st'.pendingEvents ≠ [] →
      st'.pendingEvents =
        st'.pendingEvents.take (min MAX_BATCH_SIZE st'.pendingEvents.length) ++
          (performSync st' true).1.pendingEvents ∧
      (st'.pendingEvents.take (min MAX_BATCH_SIZE st'.pendingEvents.length)).length ≤ 50 ∧
      ((performSync st' true).1.pendingEvents ≠ [] →
        (performSync st' true).2 = some (.nextBatch 1000) ∧ 1000 < SYNC_INTERVAL)) := by
  obtain ⟨hp, ht⟩ := drainSuccess_spec_aux (queueAll st evs).pendingEvents.length
    (queueAll st evs) le_rfl
  refine ⟨hp, ?_, ?_⟩
  · rw [ht, queueAll_eq, h]
    simp
  · intro st' h'
    have h1 := performSync_success_eq st' h'
    refine ⟨?_, ?_, ?_⟩
    · conv_lhs => rw [← List.take_append_drop (min MAX_BATCH_SIZE st'.pendingEvents.length) st'.pendingEvents]
      rw [h1]
    · simp only [List.length_take, MAX_BATCH_SIZE]
      omega
    · intro hrem
      have hlen : 0 < (performSync st' true).1.pendingEvents.length :=
        List.length_pos.mpr hrem
      constructor
      · rw [h1] at hlen ⊢
        simp only at hlen ⊢
        rw [if_pos hlen]
      · simp [SYNC_INTERVAL]

/-- Witness for `syncQueue_drain_spec`: three events enqueued on an empty
queue drain to an empty queue with a synced-total of exactly 3, and from a
51-event queue one successful batch keeps the remainder and schedules the
next batch after 1000 ms. -/
theorem syncQueue_drain_spec_witness :
    (drainSuccess (queueAll ⟨[], 0, 0⟩
        [sampleEvent, sampleEvent, sampleEvent])).pendingEvents = [] ∧
    (drainSuccess (queueAll ⟨[], 0, 0⟩
        [sampleEvent, sampleEvent, sampleEvent])).totalEventsSynced = 0 + 3 ∧
    (performSync ⟨List.replicate 51 sampleEvent, 0, 0⟩ true).2 =
      some (.nextBatch 1000) := by
  obtain ⟨h1, h2, h3⟩ := syncQueue_drain_spec ⟨[], 0, 0⟩
    [sampleEvent, sampleEvent, sampleEvent] rfl
  refine ⟨h1, h2, ?_⟩
  exact ((h3 ⟨List.replicate 51 sampleEvent, 0, 0⟩ (by simp)).2.2
    (by simp [performSync, MAX_BATCH_SIZE])).1

/-- C10: a successful batch flush over a non-empty queue decreases the sync
error counter by exactly one, floored at zero (natural subtraction); in
particular a counter of 2 or more stays nonzero — it is not reset — so the
next failure's backoff still reflects accumulated history. -/
theorem performSync_success_errors (st : SyncState) (h : st.pendingEvents ≠ []) :
    (performSync st true).1.syncErrors = st.syncErrors - 1 ∧
    (2 ≤ st.syncErrors → (performSync st true).1.syncErrors ≠ 0) := by
  rw [performSync_success_eq st h]
  exact ⟨rfl, fun _ => by simp; omega⟩

/-- Witness for `performSync_success_errors`: a success at error count 5
leaves the counter at 4, not 0. -/
theorem performSync_success_errors_witness :
    (performSync ⟨[sampleEvent], 5, 0⟩ true).1.syncErrors = 5 - 1 ∧
    (performSync ⟨[sampleEvent], 5, 0⟩ true).1.syncErrors ≠ 0 := by
  obtain ⟨h1, h2⟩ := performSync_success_errors ⟨[sampleEvent], 5, 0⟩ (by simp)
  exact ⟨h1, h2 (by norm_num)⟩

/-! ## Geometry

`calculateDistance` below is the haversine implementation that appears,
textually identical, in `geolocation.service.ts`, `geofence-manager.service.ts`
and `geofence-optimizer.service.ts` (`R = 6371e3`).  JavaScript floats are
idealized as reals. -/

/-- `Math.atan2 y x` (principal value in `(-π, π]`; the JS signed-zero
distinction on the `x = 0` axis is not modelled). -/
noncomputable def atan2 (y x : ℝ) : ℝ :=
  if 0 < x then Real.arctan (y / x)
  else if x < 0 then
    (if 0 ≤ y then Real.arctan (y / x) + Real.pi else Real.arctan (y / x) - Real.pi)
  else (if 0 < y then Real.pi / 2 else if y < 0 then -(Real.pi / 2) else 0)

/-- The `calculateDistance` haversine helper (meters). -/
noncomputable def calculateDistance (lat1 lon1 lat2 lon2 : ℝ) : ℝ :=
  let R : ℝ := 6371000
  let phi1 := lat1 * Real.pi / 180
  let phi2 := lat2 * Real.pi / 180
  let dphi := (lat2 - lat1) * Real.pi / 180
  let dlam := (lon2 - lon1) * Real.pi / 180
  let a := Real.sin (dphi / 2) * Real.sin (dphi / 2) +
    Real.cos phi1 * Real.cos phi2 * Real.sin (dlam / 2) * Real.sin (dlam / 2)
  let c := 2 * atan2 (Real.sqrt a) (Real.sqrt (1 - a))
  R * c

lemma atan2_zero_one : atan2 0 1 = 0 := by
  simp [atan2]

/-- The haversine distance from a point to itself is `0`. -/
lemma calculateDistance_self (lat lon : ℝ) : calculateDistance lat lon lat lon = 0 := by
  simp [calculateDistance, atan2_zero_one]

lemma atan2_sin_sq (θ : ℝ) (hθ : |θ| < Real.pi / 2) :
    atan2 (Real.sqrt (Real.sin θ * Real.sin θ))
      (Real.sqrt (1 - Real.sin θ * Real.sin θ)) = |θ| := by
  obtain ⟨hlo, hhi⟩ := abs_lt.mp hθ
  have hπ := Real.pi_pos
  have hcos : 0 < Real.cos θ := Real.cos_pos_of_mem_Ioo ⟨hlo, hhi⟩
  have hsin : Real.sqrt (Real.sin θ * Real.sin θ) = |Real.sin θ| :=
    Real.sqrt_mul_self_eq_abs _
  have hone : 1 - Real.sin θ * Real.sin θ = Real.cos θ * Real.cos θ := by
    linear_combination (-1 : ℝ) * Real.sin_sq_add_cos_sq θ
  have hcossqrt : Real.sqrt (1 - Real.sin θ * Real.sin θ) = Real.cos θ := by
    rw [hone, Real.sqrt_mul_self_eq_abs, abs_of_pos hcos]
  have habs_sin : |Real.sin θ| = Real.sin |θ| := by
    rcases le_or_lt 0 θ with h0 | h0
    · rw [abs_of_nonneg h0,
        abs_of_nonneg (Real.sin_nonneg_of_nonneg_of_le_pi h0 (by linarith))]
    · have hnn : 0 ≤ Real.sin (-θ) :=
        Real.sin_nonneg_of_nonneg_of_le_pi (by linarith) (by linarith)
      rw [abs_of_neg h0, abs_of_nonpos (by simpa [Real.sin_neg] using hnn), Real.sin_neg]
  have hcosabs : Real.cos θ = Real.cos |θ| := (Real.cos_abs θ).symm
  rw [atan2, if_pos (hcossqrt ▸ hcos), hsin, hcossqrt, habs_sin, hcosabs,
    ← Real.tan_eq_sin_div_cos,
    Real.arctan_tan (by linarith [abs_nonneg θ]) hθ]

/-- Haversine along the equator: for two points at latitude `0`, the
distance is `R · |Δλ| · π / 180`. -/
lemma calculateDistance_equator (l1 l2 : ℝ) (h : |l2 - l1| ≤ 179) :
    calculateDistance 0 l1 0 l2 = 6371000 * (|l2 - l1| * Real.pi / 180) := by
  have hπ := Real.pi_pos
  have hθ : |(l2 - l1) * Real.pi / 360| < Real.pi / 2 := by
    rw [abs_div, abs_mul, abs_of_pos hπ]
    rw [show |(360 : ℝ)| = 360 by norm_num]
    rw [div_lt_iff₀ (by norm_num)]
    nlinarith [abs_nonneg (l2 - l1)]
  have key := atan2_sin_sq ((l2 - l1) * Real.pi / 360) hθ
  have harg : (l2 - l1) * Real.pi / 180 / 2 = (l2 - l1) * Real.pi / 360 := by ring
  simp only [calculateDistance]
  rw [show ((0 : ℝ) - 0) * Real.pi / 180 = 0 by ring]
  rw [show (0 : ℝ) * Real.pi / 180 = 0 by ring]
  simp only [Real.sin_zero, Real.cos_zero, zero_div, mul_zero, zero_mul, zero_add,
    one_mul, harg]
  rw [key]
  rw [abs_div, abs_mul, abs_of_pos hπ, show |(360 : ℝ)| = 360 by norm_num]
  ring

/-! ## Station model (`src/frontend/src/app/models/station.model.ts`)

`polygon_data` in the source is a JSON string; `JSON.parse` plus the
`polygon.type === 'Polygon' && polygon.coordinates && polygon.coordinates[0]`
check that every consumer performs has exactly three outcomes, modelled by
`PolygonParse`.  The line/name bonuses in the two scoring functions depend on
the strings only through fixed substring tests
(`line.includes('山手') || line.includes('yamanote')`, …,
`name.includes('新宿') || …`); those test outcomes are modelled as the
Boolean fields below. -/

inductive PolygonParse where
  /-- `JSON.parse(station.polygon_data)` throws (absent or corrupt data). -/
  | parseFailure
  /-- Parses, but fails the `type === 'Polygon' && coordinates &&
  coordinates[0]` check. -/
  | nonPolygon
  /-- Parses to a GeoJSON Polygon; `ring` is `coordinates[0]`, a list of
  `[lng, lat]` vertices. -/
  | polygon (ring : List (ℝ × ℝ))

structure Station where
  id : ℕ
  latitude : ℝ
  longitude : ℝ
  polygon_data : PolygonParse
  /-- `station.line?.toLowerCase()` contains `'山手'` or `'yamanote'`. -/
  lineYamanote : Bool
  /-- contains `'中央'` or `'総武'`. -/
  lineChuoSobu : Bool
  /-- contains `'京浜東北'`. -/
  lineKeihinTohoku : Bool
  /-- contains `'東海道'`. -/
  lineTokaido : Bool
  /-- `station.name?.toLowerCase()` contains one of `'新宿'`, `'東京'`,
  `'渋谷'`, `'品川'`. -/
  nameMajor : Bool

structure GeoPoint where
  latitude : ℝ
  longitude : ℝ

/-! ## Geolocation service (`src/frontend/src/app/services/geolocation.service.ts`) -/

/-- The edge list traversed by the `pointInPolygon` loop: index `i` runs over
the ring, `j = i - 1` with wrap-around (`j` starts at `polygon.length - 1`). -/
def ringEdges (ring : List (ℝ × ℝ)) : List ((ℝ × ℝ) × (ℝ × ℝ)) :=
  ring.zip (ring.rotate (ring.length - 1))

open Classical in
/-- Shallow embedding of `pointInPolygon` (ray casting, lines 158–176):
`x` is the longitude, `y` the latitude, vertices are `[lng, lat]`. -/
noncomputable def pointInPolygon (point : GeoPoint) (polygon : List (ℝ × ℝ)) : Bool :=
  let x := point.longitude
  let y := point.latitude
  (ringEdges polygon).foldl
    (fun inside e =>
      let xi := e.1.1
      let yi := e.1.2
      let xj := e.2.1
      let yj := e.2.2
      if (¬ ((yi > y) ↔ (yj > y))) ∧ x < (xj - xi) * (y - yi) / (yj - yi) + xi then
        !inside
      else inside)
    false

open Classical in
/-- Shallow embedding of `isInsideStation` (lines 129–156): with a parsed
Polygon, ray-cast against its outer ring; otherwise (non-Polygon JSON, or a
parse exception caught by the `try`/`catch`) fall back to
`calculateDistance ≤ 100` meters.  Total — the catch guarantees no
exception escapes. -/
noncomputable def isInsideStation (point : GeoPoint) (station : Station) : Bool :=
  match station.polygon_data with
  | .polygon ring => pointInPolygon point ring
  | _ =>
      if calculateDistance point.latitude point.longitude
          station.latitude station.longitude ≤ 100 then true else false

/-- C2: `isInsideStation` performs the ray-cast on the outer ring exactly
when `polygon_data` parses to a Polygon; on a parse failure or a
non-Polygon parse it returns whether the haversine distance to the
station's coordinates is at most 100 m; in particular, for a station
without a parsable polygon and a user exactly at the station's
coordinates it returns `true`.  (It is a total function: the `try`/`catch`
fallback means no input throws.) -/
theorem isInsideStation_spec (p : GeoPoint) (st : Station) :
    (∀ ring, st.polygon_data = .polygon ring →
      isInsideStation p st = pointInPolygon p ring) ∧
    (st.polygon_data = .parseFailure ∨ st.polygon_data = .nonPolygon →
      (isInsideStation p st = true ↔
        calculateDistance p.latitude p.longitude st.latitude st.longitude ≤ 100)) ∧
    (p.latitude = st.latitude → p.longitude = st.longitude →
      (st.polygon_data = .parseFailure ∨ st.polygon_data = .nonPolygon) →
      isInsideStation p st = true) := by
  refine ⟨?_, ?_, ?_⟩
  · intro ring hr
    simp [isInsideStation, hr]
  · rintro (hp | hp) <;> simp [isInsideStation, hp]
  · intro hlat hlon hp
    have h0 : calculateDistance p.latitude p.longitude st.latitude st.longitude = 0 := by
      rw [hlat, hlon]
      exact calculateDistance_self _ _
    rcases hp with hp | hp <;> simp [isInsideStation, hp, h0]

/-- The spec's scenario station: `(35.6812, 139.7671)`, no polygon. -/
def stationS : Station :=
  { id := 1, latitude := 35.6812, longitude := 139.7671,
    polygon_data := .parseFailure,
    lineYamanote := false, lineChuoSobu := false, lineKeihinTohoku := false,
    lineTokaido := false, nameMajor := false }

/-- Witness for `isInsideStation_spec`: a user exactly at station
`(35.6812, 139.7671)` with no polygon is detected inside (100 m fallback). -/
theorem isInsideStation_spec_witness :
    isInsideStation ⟨35.6812, 139.7671⟩ stationS = true :=
  (isInsideStation_spec ⟨35.6812, 139.7671⟩ stationS).2.2 rfl rfl (Or.inl rfl)

/-! ## Geofence optimizer service (`src/frontend/src/services/geofence-optimizer.service.ts`)

State: `locationHistory` (most-recent-first) and the `movementPattern`
subject (`null` before the first analysis).  `new Date()` reads inside
`analyzeMovementPattern` are modelled by an explicit `Clock` argument.
JS `x % 360` on the nonnegative values produced here is `jsMod x 360`. -/

/-- Wall-clock context read via `new Date()`: `getHours()` and `getDay()`. -/
structure Clock where
  hour : ℕ
  dayOfWeek : ℕ

inductive TimeOfDay where
  | night
  | morning
  | afternoon
  | evening
deriving DecidableEq, Repr

inductive DayType where
  | weekday
  | weekend
deriving DecidableEq, Repr

structure FrequentArea where
  lat : ℝ
  lng : ℝ
  visits : ℕ

structure MovementPattern where
  averageSpeed : ℝ
  primaryDirection : ℝ
  frequentAreas : List FrequentArea
  timeOfDay : TimeOfDay
  dayType : DayType

/-- A `LocationContext` sample (`timestamp.getTime()` in milliseconds;
the optional `speed`/`heading` fields are never read by the analysis). -/
structure LocationContext where
  latitude : ℝ
  longitude : ℝ
  timestampMs : ℤ
  accuracy : ℝ

/-- An element of the `nearbyStations` input of `optimizeGeofenceSelection`
(and of the manager's optimization pass). -/
structure NearbyStation where
  station : Station
  distance : ℝ

/-- A nearby station with the score attached by `optimizeGeofenceSelection`
(scores are integers: `calculateStationScore` ends in `Math.round`). -/
structure ScoredStation where
  station : Station
  distance : ℝ
  score : ℤ

/-- The fields of `GeofenceRegionInfo` that carry data (the `data` payload
duplicates `stationId`/name/line; `lastUpdated : Date` is not modelled). -/
structure GeofenceRegionInfo where
  identifier : String
  latitude : ℝ
  longitude : ℝ
  radius : ℝ
  notifyOnEntry : Bool
  notifyOnExit : Bool
  stationId : ℕ
  priority : ℤ
  distanceFromUser : ℝ

/-- JS `a % b` for the nonnegative dividends produced by the bearing and
direction normalizations (`(angle + 360) % 360` with `angle ∈ (-180, 180]`). -/
noncomputable def jsMod (a b : ℝ) : ℝ := a - b * (⌊a / b⌋ : ℤ)

namespace Optimizer

/-- `MAX_LOCATION_HISTORY` from `geofence-optimizer.service.ts`. -/
def MAX_LOCATION_HISTORY : ℕ := 1000

structure OptimizerState where
  locationHistory : List LocationContext
  movementPattern : Option MovementPattern

/-- The consecutive pairs `(locations[i-1], locations[i])`, `i = 1, …`. -/
def consecutivePairs {α : Type} (l : List α) : List (α × α) := l.zip l.tail

open Classical in
/-- The average-speed loop of `analyzeMovementPattern` (lines 78–102), over
the 50 most recent samples: pairs with `0 < timeDiff < 600` s and implied
speed `< 50` m/s contribute `distance / timeDiff`; the average is `0` when
no pair qualifies. -/
noncomputable def averageSpeedOf (recentLocations : List LocationContext) : ℝ :=
  let acc := (consecutivePairs recentLocations).foldl
    (fun (acc : ℝ × ℕ) q =>
      let distance := calculateDistance q.1.latitude q.1.longitude
        q.2.latitude q.2.longitude
      let timeDiff := ((q.1.timestampMs : ℝ) - (q.2.timestampMs : ℝ)) / 1000
      if 0 < timeDiff ∧ timeDiff < 600 then
        let speed := distance / timeDiff
        if speed < 50 then (acc.1 + speed, acc.2 + 1) else acc
      else acc)
    (0, 0)
  if 0 < acc.2 then acc.1 / (acc.2 : ℝ) else 0

open Classical in
/-- `calculatePrimaryDirection` (lines 134–147): vector-sum the coordinate
deltas of the 20 most recent samples, convert by `atan2`, normalize to
`[0, 360)`.  Returns `0` for fewer than 5 samples. -/
noncomputable def calculatePrimaryDirection (locations : List LocationContext) : ℝ :=
  if locations.length < 5 then 0
  else
    let ps := consecutivePairs (locations.take 20)
    let totalDeltaLat := (ps.map (fun q => q.1.latitude - q.2.latitude)).sum
    let totalDeltaLng := (ps.map (fun q => q.1.longitude - q.2.longitude)).sum
    let angle := atan2 totalDeltaLat totalDeltaLng * 180 / Real.pi
    jsMod (angle + 360) 360

open Classical in
/-- One step of the `findFrequentAreas` bucketing loop: samples are keyed by
their rounded `0.001°` grid cell (JS keys cells by the string
`"gridLat,gridLng"`; two samples share a key iff they share the rounded
pair, which the `ℤ × ℤ` key reproduces).  Insertion order is preserved, as
for a JS `Map`. -/
noncomputable def accumArea (acc : List ((ℤ × ℤ) × FrequentArea))
    (loc : LocationContext) : List ((ℤ × ℤ) × FrequentArea) :=
  let gridLatI : ℤ := round (loc.latitude / 0.001)
  let gridLngI : ℤ := round (loc.longitude / 0.001)
  let key := (gridLatI, gridLngI)
  if (acc.lookup key).isSome then
    acc.map (fun kv =>
      if kv.1 = key then (kv.1, { kv.2 with visits := kv.2.visits + 1 }) else kv)
  else
    acc ++ [(key, { lat := (gridLatI : ℝ) * 0.001, lng := (gridLngI : ℝ) * 0.001,
                    visits := 1 })]

open Classical in
/-- `findFrequentAreas` (lines 152–172): bucket all samples on the `0.001°`
grid, keep cells with ≥ 5 hits, sort descending by hit count (stable, as JS
`Array.prototype.sort`), keep the top 10. -/
noncomputable def findFrequentAreas (locations : List LocationContext) : List FrequentArea :=
  let areaMap := locations.foldl accumArea []
  ((((areaMap.map Prod.snd).filter (fun a => decide (5 ≤ a.visits))).mergeSort
      (fun a b => decide (b.visits ≤ a.visits))).take 10)

/-- The `timeOfDay` classification of `analyzeMovementPattern`. -/
def timeOfDayOf (hour : ℕ) : TimeOfDay :=
  if hour < 6 then .night
  else if hour < 12 then .morning
  else if hour < 18 then .afternoon
  else .evening

/-- The `dayType` classification of `analyzeMovementPattern`. -/
def dayTypeOf (dayOfWeek : ℕ) : DayType :=
  if dayOfWeek = 0 ∨ dayOfWeek = 6 then .weekend else .weekday

open Classical in
/-- `analyzeMovementPattern` (lines 73–129): bail out (leaving the pattern
subject untouched) when fewer than 10 samples are recorded; otherwise
recompute the pattern from the history and publish it. -/
noncomputable def analyzeMovementPattern (now : Clock) (st : OptimizerState) :
    OptimizerState :=
  if st.locationHistory.length < 10 then st
  else
    let recentLocations := st.locationHistory.take 50
    let pattern : MovementPattern :=
      { averageSpeed := averageSpeedOf recentLocations
        primaryDirection := calculatePrimaryDirection recentLocations
        frequentAreas := findFrequentAreas st.locationHistory
        timeOfDay := timeOfDayOf now.hour
        dayType := dayTypeOf now.dayOfWeek }
    { st with movementPattern := some pattern }

open Classical in
/-- `updateLocation` (lines 58–68): prepend the sample, truncate the history
to `MAX_LOCATION_HISTORY`, then re-analyze.  (`saveLocationHistory` is a
storage effect with no bearing on the state.) -/
noncomputable def updateLocation (now : Clock) (st : OptimizerState)
    (location : LocationContext) : OptimizerState :=
  let h := location :: st.locationHistory
  let h := if h.length > MAX_LOCATION_HISTORY then h.take MAX_LOCATION_HISTORY else h
  analyzeMovementPattern now { st with locationHistory := h }

/-- `calculateBearing` (lines 384–394). -/
noncomputable def calculateBearing (lat1 lng1 lat2 lng2 : ℝ) : ℝ :=
  let dLng := (lng2 - lng1) * Real.pi / 180
  let lat1Rad := lat1 * Real.pi / 180
  let lat2Rad := lat2 * Real.pi / 180
  let y := Real.sin dLng * Real.cos lat2Rad
  let x := Real.cos lat1Rad * Real.sin lat2Rad -
    Real.sin lat1Rad * Real.cos lat2Rad * Real.cos dLng
  let bearing := atan2 y x * 180 / Real.pi
  jsMod (bearing + 360) 360

open Classical in
/-- `calculateStationScore` (lines 224–289).  The movement pattern is the
current value of the `movementPattern` subject (`null` → `none`). -/
noncomputable def calculateStationScore (item : NearbyStation)
    (currentLocation : GeoPoint) (pattern : Option MovementPattern) : ℤ :=
  let maxDistance : ℝ := 10000
  let distanceScore := max 0 ((maxDistance - item.distance) / maxDistance * 100)
  let s1 : ℝ := distanceScore * 0.4
  let s2 := s1 + (match pattern with
    | some pat =>
        let directionToStation := calculateBearing currentLocation.latitude
          currentLocation.longitude item.station.latitude item.station.longitude
        let directionDiff := |directionToStation - pat.primaryDirection|
        let alignmentScore :=
          max 0 ((180 - min directionDiff (360 - directionDiff)) / 180 * 100)
        alignmentScore * 0.2
    | none => 0)
  let s3 := s2 + (match pattern with
    | some pat =>
        if pat.frequentAreas.length > 0 ∧ pat.frequentAreas.any (fun area =>
            decide (calculateDistance item.station.latitude item.station.longitude
              area.lat area.lng ≤ 500)) then 30 else 0
    | none => 0)
  let s4 := s3 +
    (if item.station.lineYamanote then 25
     else if item.station.lineChuoSobu then 20
     else if item.station.lineKeihinTohoku then 15
     else if item.station.lineTokaido then 10 else 0)
  let s5 := s4 + (match pattern with
    | some pat =>
        if (pat.timeOfDay = .morning ∨ pat.timeOfDay = .evening) ∧
            pat.dayType = .weekday ∧ item.station.nameMajor then 20 else 0
    | none => 0)
  let s6 := s5 + (match pattern with
    | some pat => if pat.averageSpeed > 10 then 10 else 0
    | none => 0)
  round s6

open Classical in
/-- `applyContextFiltering` (lines 294–319).  With average speed above
20 m/s: keep the `score ≥ 50` candidates, truncated to the first
`Math.floor(stations.length * 0.7)` of them — the 70% is of the PRE-filter
count.  Below 2 m/s: keep candidates within 2000 m.  Otherwise (including
the weekend branch, which has no effect) the list is returned unchanged. -/
noncomputable def applyContextFiltering (stations : List ScoredStation)
    (pattern : Option MovementPattern) : List ScoredStation :=
  match pattern with
  | none => stations
  | some pat =>
      if pat.averageSpeed > 20 then
        (stations.filter (fun s => decide (50 ≤ s.score))).take
          (⌊(stations.length : ℝ) * 0.7⌋).toNat
      else if pat.averageSpeed < 2 then
        stations.filter (fun s => decide (s.distance ≤ 2000))
      else stations

open Classical in
/-- `calculateDynamicRadius` (lines 324–370).  The polygon branch computes
the bounding box of the outer ring and takes the max of the adjusted base
radius and `max(latDistance, lngDistance)/2 + 30`; an empty ring (or a
non-Polygon / unparsable `polygon_data`) falls back to the base radius (the
empty-ring access `coords[0][1]` throws and is caught). -/
noncomputable def calculateDynamicRadius (item : ScoredStation)
    (pattern : Option MovementPattern) : ℝ :=
  let b1 : ℝ :=
    if item.distance > 5000 then 150
    else if item.distance > 2000 then 120
    else if item.distance < 500 then 80
    else 100
  let b2 := match pattern with
    | some pat =>
        if pat.averageSpeed > 15 then b1 + 50
        else if pat.averageSpeed < 1 then b1 - 20
        else b1
    | none => b1
  let b3 := match item.station.polygon_data with
    | .polygon (c0 :: rest) =>
        let coords := c0 :: rest
        let minLat := (coords.map Prod.snd).foldl min c0.2
        let maxLat := (coords.map Prod.snd).foldl max c0.2
        let minLng := (coords.map Prod.fst).foldl min c0.1
        let maxLng := (coords.map Prod.fst).foldl max c0.1
        let latDistance := calculateDistance minLat item.station.longitude
          maxLat item.station.longitude
        let lngDistance := calculateDistance item.station.latitude minLng
          item.station.latitude maxLng
        let polygonRadius := max latDistance lngDistance / 2
        max b2 (polygonRadius + 30)
    | _ => b2
  max b3 50

open Classical in
/-- `optimizeGeofenceSelection` (lines 177–219): score, sort descending by
score (stable), context-filter, truncate to `maxRegions`, and build the
region records.  `pattern` is the current `movementPattern` value. -/
noncomputable def optimizeGeofenceSelection (nearbyStations : List NearbyStation)
    (currentLocation : GeoPoint) (maxRegions : ℕ)
    (pattern : Option MovementPattern) : List GeofenceRegionInfo :=
  let optimizedStations :=
    (nearbyStations.map (fun item =>
      ScoredStation.mk item.station item.distance
        (calculateStationScore item currentLocation pattern))).mergeSort
      (fun a b => decide (b.score ≤ a.score))
  let contextFiltered := applyContextFiltering optimizedStations pattern
  let selected := contextFiltered.take maxRegions
  selected.map (fun item =>
    { identifier := "station-" ++ toString item.station.id
      latitude := item.station.latitude
      longitude := item.station.longitude
      radius := calculateDynamicRadius item pattern
      notifyOnEntry := true
      notifyOnExit := true
      stationId := item.station.id
      priority := item.score
      distanceFromUser := item.distance })

end Optimizer

/-! ## Geofence manager service (`src/frontend/src/services/geofence-manager.service.ts`)

State: the `currentLocation` subject, the `activeRegions` subject and the
station catalog (`allStations`).  The `BackgroundGeofence.addGeofences` /
`removeGeofences` native calls performed by `updateActiveRegions` are
external effects; their net result on the service state is
`activeRegions := newRegions`, which is what the model records.
`lastOptLocation` is ghost instrumentation (not a source field): the
location at which the last optimization pass ran, recorded solely so that
the spec's re-optimization-trigger policy can be stated. -/

namespace Manager

def MAX_ANDROID_REGIONS : ℕ := 100

def MAX_IOS_REGIONS : ℕ := 20

/-- `OPTIMIZATION_RADIUS` (meters). -/
def OPTIMIZATION_RADIUS : ℝ := 10000

/-- `getMaxRegions` (lines 274–278): the platform is hardcoded to `'ios'`,
so this always returns `MAX_IOS_REGIONS = 20`. -/
def getMaxRegions : ℕ := MAX_IOS_REGIONS

structure ManagerState where
  currentLocation : Option GeoPoint
  activeRegions : List GeofenceRegionInfo
  allStations : List Station
  lastOptLocation : Option GeoPoint

structure PrioritizedStation where
  station : Station
  distance : ℝ
  priority : ℤ

open Classical in
/-- The priority computed per item inside `prioritizeStations`
(lines 156–188): a piecewise distance score, a line bonus (with a
catch-all `+10`), and a major-station name bonus. -/
noncomputable def priorityOf (item : NearbyStation) : ℤ :=
  let p1 : ℤ :=
    if item.distance ≤ 500 then 100
    else if item.distance ≤ 1000 then 80
    else if item.distance ≤ 2000 then 60
    else if item.distance ≤ 5000 then 40
    else 20
  let p2 := p1 +
    (if item.station.lineYamanote then 30
     else if item.station.lineChuoSobu then 25
     else if item.station.lineKeihinTohoku then 20
     else if item.station.lineTokaido then 15 else 10)
  p2 + (if item.station.nameMajor then 25 else 0)

open Classical in
/-- `prioritizeStations` (lines 152–190): attach priorities and sort
descending (stable). -/
noncomputable def prioritizeStations (nearbyStations : List NearbyStation) :
    List PrioritizedStation :=
  (nearbyStations.map (fun item =>
    PrioritizedStation.mk item.station item.distance (priorityOf item))).mergeSort
    (fun a b => decide (b.priority ≤ a.priority))

open Classical in
/-- `calculateOptimalRadius` (lines 195–228): with a parsed, non-empty
outer ring, return `max(latDistance, lngDistance)/2 + 30` floored at 50;
otherwise (non-Polygon, parse failure, or the empty-ring access throwing
into the `catch`) fall back to the distance-tiered radius. -/
noncomputable def calculateOptimalRadius (station : Station)
    (distanceFromUser : ℝ) : ℝ :=
  match station.polygon_data with
  | .polygon (c0 :: rest) =>
      let coords := c0 :: rest
      let minLat := (coords.map Prod.snd).foldl min c0.2
      let maxLat := (coords.map Prod.snd).foldl max c0.2
      let minLng := (coords.map Prod.fst).foldl min c0.1
      let maxLng := (coords.map Prod.fst).foldl max c0.1
      let latDistance := calculateDistance minLat station.longitude
        maxLat station.longitude
      let lngDistance := calculateDistance station.latitude minLng
        station.latitude maxLng
      let polygonRadius := max latDistance lngDistance / 2
      max (polygonRadius + 30) 50
  | _ =>
      if distanceFromUser ≤ 500 then 80
      else if distanceFromUser ≤ 1000 then 100
      else if distanceFromUser ≤ 2000 then 120
      else if distanceFromUser ≤ 5000 then 150
      else 200

open Classical in
/-- `optimizeGeofenceRegions` (lines 84–147): distance-filter the catalog
to the 10 km optimization radius (sorted ascending by distance, stable),
prioritize, truncate to `getMaxRegions`, build the region records and
install them as the active set. -/
noncomputable def optimizeGeofenceRegions (st : ManagerState) (location : GeoPoint) :
    ManagerState :=
  let nearbyStations :=
    ((st.allStations.map (fun station =>
      NearbyStation.mk station
        (calculateDistance location.latitude location.longitude
          station.latitude station.longitude))).filter
      (fun item => decide (item.distance ≤ OPTIMIZATION_RADIUS))).mergeSort
      (fun a b => decide (a.distance ≤ b.distance))
  let prioritizedStations := prioritizeStations nearbyStations
  let selectedStations := prioritizedStations.take getMaxRegions
  let newRegions : List GeofenceRegionInfo := selectedStations.map (fun item =>
    { identifier := "station-" ++ toString item.station.id
      latitude := item.station.latitude
      longitude := item.station.longitude
      radius := calculateOptimalRadius item.station item.distance
      notifyOnEntry := true
      notifyOnExit := true
      stationId := item.station.id
      priority := item.priority
      distanceFromUser := item.distance })
  { st with activeRegions := newRegions, lastOptLocation := some location }

open Classical in
/-- `updateLocation` (lines 59–79): publish the new location; when a
previous location exists and the displacement from it (NOT from the last
optimization) is under 1000 m, stop there; otherwise run the optimization
pass. -/
noncomputable def updateLocation (st : ManagerState) (latitude longitude : ℝ) :
    ManagerState :=
  let newLocation : GeoPoint := ⟨latitude, longitude⟩
  let st' := { st with currentLocation := some newLocation }
  match st.currentLocation with
  | some previousLocation =>
      if calculateDistance previousLocation.latitude previousLocation.longitude
          latitude longitude < 1000 then st'
      else optimizeGeofenceRegions st' newLocation
  | none => optimizeGeofenceRegions st' newLocation

end Manager

/-! ## C1: capacity bound -/

/-- C1: the Region Selector returns at most `maxRegions` regions whatever
the inputs, and the Geofence Manager's optimization pass registers at most
`getMaxRegions = 20` regions whatever the catalog. -/
theorem region_capacity_bound (nearbyStations : List NearbyStation)
    (currentLocation : GeoPoint) (maxRegions : ℕ)
    (pattern : Option MovementPattern) (st : Manager.ManagerState)
    (location : GeoPoint) :
    (Optimizer.optimizeGeofenceSelection nearbyStations currentLocation
        maxRegions pattern).length ≤ maxRegions ∧
    ((Manager.optimizeGeofenceRegions st location).activeRegions).length ≤
      Manager.getMaxRegions := by
  constructor
  · simp only [Optimizer.optimizeGeofenceSelection, List.length_map,
      List.length_take]
    exact Nat.min_le_left _ _
  · simp only [Manager.optimizeGeofenceRegions, List.length_map,
      List.length_take]
    exact Nat.min_le_left _ _

/-! ## C9: profile present exactly from the 10th sample -/

lemma analyzeMovementPattern_history (now : Clock) (st : Optimizer.OptimizerState) :
    (Optimizer.analyzeMovementPattern now st).locationHistory =
      st.locationHistory := by
  simp only [Optimizer.analyzeMovementPattern]
  split_ifs <;> rfl

lemma analyzeMovementPattern_isSome (now : Clock) (st : Optimizer.OptimizerState) :
    (Optimizer.analyzeMovementPattern now st).movementPattern.isSome =
      if st.locationHistory.length < 10 then st.movementPattern.isSome
      else true := by
  simp only [Optimizer.analyzeMovementPattern]
  split_ifs <;> simp

lemma updateLocation_newHistory (now : Clock) (st : Optimizer.OptimizerState)
    (loc : LocationContext) :
    (Optimizer.updateLocation now st loc).locationHistory.length =
      min (st.locationHistory.length + 1) 1000 := by
  simp only [Optimizer.updateLocation]
  rw [analyzeMovementPattern_history]
  simp only [Optimizer.MAX_LOCATION_HISTORY]
  split_ifs with h <;> simp only [List.length_take, List.length_cons] at h ⊢ <;> omega

lemma updateLocation_isSome (now : Clock) (st : Optimizer.OptimizerState)
    (loc : LocationContext) :
    (Optimizer.updateLocation now st loc).movementPattern.isSome =
      if min (st.locationHistory.length + 1) 1000 < 10 then
        st.movementPattern.isSome
      else true := by
  simp only [Optimizer.updateLocation, Optimizer.analyzeMovementPattern,
    Optimizer.MAX_LOCATION_HISTORY]
  split_ifs <;>
    simp_all [List.length_take, List.length_cons] <;>
    omega

/-- Run the optimizer over a list of `(clock, sample)` updates. -/
noncomputable def runOptimizer (init : Optimizer.OptimizerState)
    (samples : List (Clock × LocationContext)) : Optimizer.OptimizerState :=
  samples.foldl (fun s p => Optimizer.updateLocation p.1 s p.2) init

lemma runOptimizer_invariant (samples : List (Clock × LocationContext)) :
    ∀ (st : Optimizer.OptimizerState) (n : ℕ),
      st.locationHistory.length = min n 1000 →
      (st.movementPattern.isSome = true ↔ 10 ≤ n) →
      ((runOptimizer st samples).movementPattern.isSome = true ↔
        10 ≤ n + samples.length) := by
  induction samples with
  | nil =>
      intro st n hlen hiff
      simpa [runOptimizer] using hiff
  | cons p ps ih =>
      intro st n hlen hiff
      have hstep := ih (Optimizer.updateLocation p.1 st p.2) (n + 1)
        (by rw [updateLocation_newHistory, hlen]; omega)
        (by
          rw [updateLocation_isSome, hlen]
          split_ifs with h
          · rw [hiff]; omega
          · simp only [true_iff]; omega)
      simp only [runOptimizer, List.foldl_cons] at hstep ⊢
      rw [hstep]
      simp only [List.length_cons]
      omega

/-- C9: starting from the fresh optimizer state (empty history, no
pattern), the movement profile is absent exactly while fewer than 10
samples have been recorded; recording the 10th sample makes it present. -/
theorem movementPattern_requires_ten_samples
    (samples : List (Clock × LocationContext)) :
    (runOptimizer ⟨[], none⟩ samples).movementPattern.isSome = true ↔
      10 ≤ samples.length := by
  simpa using runOptimizer_invariant samples ⟨[], none⟩ 0 (by simp) (by simp)

/-! ## C5: the distance component of the scores -/

open Classical in
/-- Modelled from the spec claim (C5): the piecewise distance score table
"≤500 m: 100, ≤1000: 80, ≤2000: 60, ≤5000: 40, else 20". -/
noncomputable def claimedDistanceScore (distance : ℝ) : ℝ :=
  if distance ≤ 500 then 100
  else if distance ≤ 1000 then 80
  else if distance ≤ 2000 then 60
  else if distance ≤ 5000 then 40
  else 20

open Classical in
/-- The same table as an integer priority (as it actually appears in the
Manager's `prioritizeStations`). -/
noncomputable def claimedDistancePriority (distance : ℝ) : ℤ :=
  if distance ≤ 500 then 100
  else if distance ≤ 1000 then 80
  else if distance ≤ 2000 then 60
  else if distance ≤ 5000 then 40
  else 20

/-- A station matching none of the line/name substring tests, with no
parsable polygon, at the origin. -/
def stationPlain : Station :=
  { id := 2, latitude := 0, longitude := 0, polygon_data := .parseFailure,
    lineYamanote := false, lineChuoSobu := false, lineKeihinTohoku := false,
    lineTokaido := false, nameMajor := false }

/-- C5 (counterexample): for a bonus-free station 600 m away and NO
movement profile, the Region Selector's score is
`round(((10000−600)/10000·100)·0.4) = 38` — the distance component is
linear in the distance and is weighted 40% even without a profile — while
the claimed piecewise table at full weight would give 80. -/
theorem stationScore_counterexample :
    Optimizer.calculateStationScore ⟨stationPlain, 600⟩ ⟨0, 0⟩ none = 38 ∧
    claimedDistanceScore 600 = 80 ∧ ((38 : ℤ) ≠ 80) := by
  refine ⟨?_, ?_, by norm_num⟩
  · have hmax : max (0 : ℝ) ((10000 - 600) / 10000 * 100) = 94 := by
      rw [max_eq_right] <;> norm_num
    simp only [Optimizer.calculateStationScore, stationPlain, hmax]
    norm_num
    rw [round_eq, Int.floor_eq_iff]
    norm_num
  · rw [claimedDistanceScore]
    norm_num

/-- C5 (amended): the Region Selector's (`calculateStationScore`) distance
component is linear — `max(0, (10000−d)/10000·100)`, weighted 40% whether
or not a movement profile is present (with no profile and no line bonus the
whole score is exactly that weighted component) — while the claimed
piecewise table (≤500→100, ≤1000→80, ≤2000→60, ≤5000→40, else 20) is the
distance component of the Geofence Manager's `prioritizeStations`, at full
weight, which uses no movement profile at all. -/
theorem stationScore_distance_spec (st : Station) (d : ℝ) (loc : GeoPoint)
    (hy : st.lineYamanote = false) (hc : st.lineChuoSobu = false)
    (hk : st.lineKeihinTohoku = false) (htk : st.lineTokaido = false) :
    Optimizer.calculateStationScore ⟨st, d⟩ loc none =
      round (max 0 ((10000 - d) / 10000 * 100) * (0.4 : ℝ)) ∧
    (∀ item : NearbyStation, Manager.priorityOf item =
      claimedDistancePriority item.distance
      + (if item.station.lineYamanote then 30
         else if item.station.lineChuoSobu then 25
         else if item.station.lineKeihinTohoku then 20
         else if item.station.lineTokaido then 15 else 10)
      + (if item.station.nameMajor then 25 else 0)) := by
  constructor
  · simp only [Optimizer.calculateStationScore, hy, hc, hk, htk]
    norm_num
  · intro item
    simp only [Manager.priorityOf, claimedDistancePriority]

/-- Witness for `stationScore_distance_spec`: the bonus-free station at
600 m scores the rounded weighted linear component, and the Manager
priority of that station at 600 m is `80 + 10 + 0`. -/
theorem stationScore_distance_spec_witness :
    Optimizer.calculateStationScore ⟨stationPlain, 600⟩ ⟨0, 0⟩ none =
      round (max 0 ((10000 - 600) / 10000 * 100) * (0.4 : ℝ)) ∧
    Manager.priorityOf ⟨stationPlain, 600⟩ =
      claimedDistancePriority 600 + 10 + 0 := by
  obtain ⟨h1, h2⟩ := stationScore_distance_spec stationPlain 600 ⟨0, 0⟩
    rfl rfl rfl rfl
  refine ⟨h1, ?_⟩
  rw [h2 ⟨stationPlain, 600⟩]
  simp [stationPlain]

/-! ## C6: the high-speed context filter -/

open Classical in
/-- Modelled from the spec claim (C6): reduce to the `score ≥ 50`
candidates and then drop the bottom 30% — by count — OF THE QUALIFYING
list. -/
noncomputable def claimedHighSpeedFilter (stations : List ScoredStation) :
    List ScoredStation :=
  let qualifying := stations.filter (fun s => decide (50 ≤ s.score))
  qualifying.take (qualifying.length - (⌊(qualifying.length : ℝ) * 0.3⌋).toNat)

/-- A candidate over `stationPlain` at 600 m with the given score. -/
def scored (sc : ℤ) : ScoredStation := ⟨stationPlain, 600, sc⟩

/-- Ten scored candidates, seven of which score ≥ 50. -/
def tenCandidates : List ScoredStation :=
  [scored 90, scored 80, scored 70, scored 65, scored 60, scored 55, scored 50,
   scored 40, scored 30, scored 20]

/-- An average speed of 25 m/s (> 20: the vehicular branch). -/
def fastPattern : MovementPattern :=
  { averageSpeed := 25, primaryDirection := 0, frequentAreas := [],
    timeOfDay := .afternoon, dayType := .weekday }

/-- C6 (counterexample): with 10 candidates of which 7 score ≥ 50 and
average speed 25 m/s, `applyContextFiltering` keeps all 7 qualifying
candidates (its 70% cut is computed from the PRE-filter count of 10, i.e.
`slice(0, 7)`), whereas the claim's "additionally drop the bottom 30% by
count" of the qualifying list would leave only 5. -/
theorem contextFiltering_counterexample :
    Optimizer.applyContextFiltering tenCandidates (some fastPattern) =
      [scored 90, scored 80, scored 70, scored 65, scored 60, scored 55,
       scored 50] ∧
    claimedHighSpeedFilter tenCandidates =
      [scored 90, scored 80, scored 70, scored 65, scored 60] ∧
    Optimizer.applyContextFiltering tenCandidates (some fastPattern) ≠
      claimedHighSpeedFilter tenCandidates := by
  have hfilter : tenCandidates.filter (fun s => decide (50 ≤ s.score)) =
      [scored 90, scored 80, scored 70, scored 65, scored 60, scored 55,
       scored 50] := by
    simp [tenCandidates, List.filter, scored]
  have h7 : ((⌊(tenCandidates.length : ℝ) * 0.7⌋).toNat) = 7 := by
    rw [show ((tenCandidates.length : ℝ) * 0.7) = ((7 : ℤ) : ℝ) by
      simp [tenCandidates]; norm_num]
    simp
  have h2 : ((⌊(([ scored 90, scored 80, scored 70, scored 65, scored 60,
      scored 55, scored 50] : List ScoredStation).length : ℝ) * 0.3⌋).toNat) = 2 := by
    rw [show ((([ scored 90, scored 80, scored 70, scored 65, scored 60,
        scored 55, scored 50] : List ScoredStation).length : ℝ) * 0.3) = 2.1 by
      simp; norm_num]
    rw [show (⌊(2.1 : ℝ)⌋ : ℤ) = 2 by
      rw [Int.floor_eq_iff]
      norm_num]
    rfl
  have hactual : Optimizer.applyContextFiltering tenCandidates (some fastPattern) =
      [scored 90, scored 80, scored 70, scored 65, scored 60, scored 55,
       scored 50] := by
    rw [Optimizer.applyContextFiltering]
    rw [if_pos (by norm_num [fastPattern])]
    rw [hfilter, h7]
    rfl
  have hclaimed : claimedHighSpeedFilter tenCandidates =
      [scored 90, scored 80, scored 70, scored 65, scored 60] := by
    rw [claimedHighSpeedFilter]
    simp only [hfilter, h2]
    rfl
  refine ⟨hactual, hclaimed, ?_⟩
  rw [hactual, hclaimed]
  intro hcontra
  have := congrArg List.length hcontra
  simp at this

/-- C6 (amended): with a movement profile of average speed above 20 m/s the
scored candidate list is reduced to the `score ≥ 50` candidates truncated
to the first `⌊0.7·n⌋`, where `n` is the PRE-filter candidate count — so
when at most 70% of the candidates qualify, nothing beyond the score filter
is dropped; with average speed below 2 m/s the list is reduced to the
candidates within 2000 m; otherwise it is returned unchanged. -/
theorem contextFiltering_spec (stations : List ScoredStation)
    (pat : MovementPattern) :
    (pat.averageSpeed > 20 →
      Optimizer.applyContextFiltering stations (some pat) =
        (stations.filter (fun s => decide (50 ≤ s.score))).take
          (⌊(stations.length : ℝ) * 0.7⌋).toNat ∧
      ((stations.filter (fun s => decide (50 ≤ s.score))).length ≤
          (⌊(stations.length : ℝ) * 0.7⌋).toNat →
        Optimizer.applyContextFiltering stations (some pat) =
          stations.filter (fun s => decide (50 ≤ s.score)))) ∧
    (¬ pat.averageSpeed > 20 → pat.averageSpeed < 2 →
      Optimizer.applyContextFiltering stations (some pat) =
        stations.filter (fun s => decide (s.distance ≤ 2000))) ∧
    (¬ pat.averageSpeed > 20 → ¬ pat.averageSpeed < 2 →
      Optimizer.applyContextFiltering stations (some pat) = stations) := by
  refine ⟨fun hfast => ⟨?_, ?_⟩, fun hslow1 hslow2 => ?_, fun h1 h2 => ?_⟩
  · rw [Optimizer.applyContextFiltering, if_pos hfast]
  · intro hle
    rw [Optimizer.applyContextFiltering, if_pos hfast]
    exact List.take_of_length_le hle
  · rw [Optimizer.applyContextFiltering, if_neg hslow1, if_pos hslow2]
  · rw [Optimizer.applyContextFiltering, if_neg h1, if_neg h2]

/-- An average speed of 5 m/s (neither branch applies). -/
def midPattern : MovementPattern :=
  { averageSpeed := 5, primaryDirection := 0, frequentAreas := [],
    timeOfDay := .afternoon, dayType := .weekday }

/-- Witness for `contextFiltering_spec`: at 5 m/s the candidate list is
returned unchanged. -/
theorem contextFiltering_spec_witness :
    Optimizer.applyContextFiltering [scored 60] (some midPattern) =
      [scored 60] :=
  (contextFiltering_spec [scored 60] midPattern).2.2
    (by norm_num [midPattern]) (by norm_num [midPattern])

/-! ## C7: per-candidate radii -/

open Classical in
/-- Modelled from the spec claim (C7): the claimed distance-tiered fallback
radius "≤500 m→80, ≤1000→100, ≤2000→120, ≤5000→150, else→200". -/
noncomputable def claimedFallbackRadius (distance : ℝ) : ℝ :=
  if distance ≤ 500 then 80
  else if distance ≤ 1000 then 100
  else if distance ≤ 2000 then 120
  else if distance ≤ 5000 then 150
  else 200

open Classical in
/-- Modelled from the spec claim (C7): the claimed polygon-derived radius —
half the DIAGONAL of the boundary's bounding box plus a 30 m buffer,
floored at 50 m — over the same bounding-box side lengths the code
computes. -/
noncomputable def claimedPolygonRadius (station : Station) (c0 : ℝ × ℝ)
    (rest : List (ℝ × ℝ)) : ℝ :=
  let coords := c0 :: rest
  let minLat := (coords.map Prod.snd).foldl min c0.2
  let maxLat := (coords.map Prod.snd).foldl max c0.2
  let minLng := (coords.map Prod.fst).foldl min c0.1
  let maxLng := (coords.map Prod.fst).foldl max c0.1
  let latDistance := calculateDistance minLat station.longitude
    maxLat station.longitude
  let lngDistance := calculateDistance station.latitude minLng
    station.latitude maxLng
  let diagonal := Real.sqrt (latDistance ^ 2 + lngDistance ^ 2)
  max (diagonal / 2 + 30) 50

/-- A station at the origin whose polygon outer ring is the (degenerate)
equatorial segment from longitude `-0.0001` to `0.0001` (`[lng, lat]`
vertices, a bounding box of width ≈ 22.2 m and height 0). -/
def stationPoly : Station :=
  { id := 3, latitude := 0, longitude := 0,
    polygon_data := .polygon [(-0.0001, 0), (0.0001, 0)],
    lineYamanote := false, lineChuoSobu := false, lineKeihinTohoku := false,
    lineTokaido := false, nameMajor := false }

lemma equator_width_eval :
    calculateDistance 0 (-0.0001) 0 0.0001 =
      6371000 * (0.0002 * Real.pi / 180) := by
  have habs : |(0.0001 : ℝ) - (-0.0001)| = 0.0002 := by
    rw [show (0.0001 : ℝ) - (-0.0001) = 0.0002 by norm_num]
    rw [abs_of_pos (by norm_num)]
  rw [calculateDistance_equator (-0.0001) 0.0001 (by rw [habs]; norm_num), habs]

/-- C7 (counterexample): (i) for a candidate 1500 m away with no parsable
polygon and no movement profile, `calculateDynamicRadius` returns 100 —
its tiers are `<500→80, [500,2000]→100, (2000,5000]→120, >5000→150`, never
200 — while the claimed tier table gives 120 at 1500 m; (ii) for a
candidate whose polygon bounding box is ≈22 m wide, the code returns
`max(fallback, width/2+30) = 100`, not the claimed polygon-preferred
`max(diagonal/2+30, 50) = 50`. -/
theorem dynamicRadius_counterexample :
    Optimizer.calculateDynamicRadius ⟨stationPlain, 1500, 0⟩ none = 100 ∧
    claimedFallbackRadius 1500 = 120 ∧ ((100 : ℝ) ≠ 120) ∧
    Optimizer.calculateDynamicRadius ⟨stationPoly, 1500, 0⟩ none = 100 ∧
    claimedPolygonRadius stationPoly (-0.0001, 0) [(0.0001, 0)] = 50 ∧
    ((100 : ℝ) ≠ 50) := by
  have hπlt := Real.pi_lt_d2
  have hπgt := Real.pi_gt_d2
  have hwpos : (0 : ℝ) ≤ 6371000 * (0.0002 * Real.pi / 180) := by positivity
  have hwle : 6371000 * (0.0002 * Real.pi / 180) ≤ 40 := by nlinarith
  refine ⟨?_, ?_, by norm_num, ?_, ?_, by norm_num⟩
  · simp only [Optimizer.calculateDynamicRadius, stationPlain]
    rw [if_neg (by norm_num), if_neg (by norm_num), if_neg (by norm_num)]
    rw [max_eq_left (by norm_num)]
  · rw [claimedFallbackRadius]
    rw [if_neg (by norm_num), if_neg (by norm_num), if_pos (by norm_num)]
  · simp only [Optimizer.calculateDynamicRadius, stationPoly]
    rw [if_neg (by norm_num), if_neg (by norm_num), if_neg (by norm_num)]
    simp only [List.map_cons, List.map_nil, List.foldl_cons, List.foldl_nil,
      min_self, max_self]
    rw [show min (-0.0001 : ℝ) 0.0001 = -0.0001 from min_eq_left (by norm_num)]
    rw [show max (-0.0001 : ℝ) 0.0001 = 0.0001 from max_eq_right (by norm_num)]
    rw [calculateDistance_self, equator_width_eval]
    rw [max_eq_right hwpos]
    rw [show (100 : ℝ) ⊔ (6371000 * (0.0002 * Real.pi / 180) / 2 + 30) = 100 from
      max_eq_left (by nlinarith)]
    rw [show (100 : ℝ) ⊔ 50 = 100 from max_eq_left (by norm_num)]
  · simp only [claimedPolygonRadius, stationPoly]
    simp only [List.map_cons, List.map_nil, List.foldl_cons, List.foldl_nil,
      min_self, max_self]
    rw [show min (-0.0001 : ℝ) 0.0001 = -0.0001 from min_eq_left (by norm_num)]
    rw [show max (-0.0001 : ℝ) 0.0001 = 0.0001 from max_eq_right (by norm_num)]
    rw [calculateDistance_self, equator_width_eval]
    rw [show (0 : ℝ) ^ 2 + (6371000 * (0.0002 * Real.pi / 180)) ^ 2 =
        (6371000 * (0.0002 * Real.pi / 180)) ^ 2 by ring]
    rw [Real.sqrt_sq hwpos]
    rw [max_eq_right (by nlinarith)]

/-- C7 (amended): without a usable polygon the Region Selector's radius
tiers are `d<500→80, 500≤d≤2000→100, 2000<d≤5000→120, d>5000→150` (there
is no 200 m tier), adjusted `+50` when the average speed exceeds 15 m/s or
`−20` when it is under 1 m/s, floored at 50 m; the claimed tier table
(≤500→80, ≤1000→100, ≤2000→120, ≤5000→150, else 200) is the Geofence
Manager's fallback (`calculateOptimalRadius`), which applies no movement
adjustment; and every radius the Region Selector computes is at least
50 m. -/
theorem dynamicRadius_spec :
    (∀ (st : Station) (d : ℝ) (s : ℤ),
      (st.polygon_data = .parseFailure ∨ st.polygon_data = .nonPolygon) →
      Optimizer.calculateDynamicRadius ⟨st, d, s⟩ none =
        (if d > 5000 then 150 else if d > 2000 then 120
         else if d < 500 then 80 else 100)) ∧
    (∀ (st : Station) (d : ℝ) (s : ℤ) (pat : MovementPattern),
      (st.polygon_data = .parseFailure ∨ st.polygon_data = .nonPolygon) →
      Optimizer.calculateDynamicRadius ⟨st, d, s⟩ (some pat) =
        max ((if d > 5000 then 150 else if d > 2000 then 120
              else if d < 500 then 80 else 100) +
             (if pat.averageSpeed > 15 then 50
              else if pat.averageSpeed < 1 then -20 else 0)) 50) ∧
    (∀ (st : Station) (d : ℝ),
      (st.polygon_data = .parseFailure ∨ st.polygon_data = .nonPolygon) →
      Manager.calculateOptimalRadius st d = claimedFallbackRadius d) ∧
    (∀ (item : ScoredStation) (pattern : Option MovementPattern),
      50 ≤ Optimizer.calculateDynamicRadius item pattern) := by
  refine ⟨fun st d s hp => ?_, fun st d s pat hp => ?_, fun st d hp => ?_,
    fun item pattern => ?_⟩
  · rcases hp with hp | hp <;>
      (simp only [Optimizer.calculateDynamicRadius, hp]
       split_ifs <;> rw [max_eq_left (by norm_num)])
  · rcases hp with hp | hp <;>
      (simp only [Optimizer.calculateDynamicRadius, hp]
       split_ifs <;> ring_nf)
  · rcases hp with hp | hp <;>
      simp only [Manager.calculateOptimalRadius, hp, claimedFallbackRadius]
  · simp only [Optimizer.calculateDynamicRadius]
    exact le_max_right _ _

/-- Witness for `dynamicRadius_spec`: the polygon-free station at 300 m
with no profile gets radius 80; the Manager's fallback at 300 m matches
the claimed table (80); and the radius floor holds on a concrete item. -/
theorem dynamicRadius_spec_witness :
    Optimizer.calculateDynamicRadius ⟨stationPlain, 300, 0⟩ none =
      (if (300 : ℝ) > 5000 then 150 else if (300 : ℝ) > 2000 then 120
       else if (300 : ℝ) < 500 then 80 else 100) ∧
    Manager.calculateOptimalRadius stationPlain 300 =
      claimedFallbackRadius 300 ∧
    50 ≤ Optimizer.calculateDynamicRadius ⟨stationPlain, 300, 0⟩ none := by
  obtain ⟨h1, _, h3, h4⟩ := dynamicRadius_spec
  exact ⟨h1 stationPlain 300 0 (Or.inl rfl), h3 stationPlain 300 (Or.inl rfl),
    h4 ⟨stationPlain, 300, 0⟩ none⟩

/-! ## C8: the re-optimization trigger -/

lemma equator_eval (l1 l2 a : ℝ) (ha : l2 - l1 = a ∨ l2 - l1 = -a)
    (h0 : 0 ≤ a) (h179 : a ≤ 179) :
    calculateDistance 0 l1 0 l2 = 6371000 * (a * Real.pi / 180) := by
  have habs : |l2 - l1| = a := by
    rcases ha with h | h <;> rw [h]
    · exact abs_of_nonneg h0
    · rw [abs_neg]; exact abs_of_nonneg h0
  rw [calculateDistance_equator _ _ (by rw [habs]; exact h179), habs]

/-- C8 (amended): when a previous location exists, the Geofence Manager
re-optimizes exactly when the displacement from the PREVIOUS LOCATION
UPDATE (not from the last optimization) is at least 1000 m; under 1000 m
the update changes only the stored current location, so the registered
region set is unchanged. -/
theorem managerUpdateLocation_spec (st : Manager.ManagerState) (lat lng : ℝ)
    (prev : GeoPoint) (hprev : st.currentLocation = some prev) :
    (calculateDistance prev.latitude prev.longitude lat lng < 1000 →
      Manager.updateLocation st lat lng =
        { st with currentLocation := some ⟨lat, lng⟩ }) ∧
    (¬ calculateDistance prev.latitude prev.longitude lat lng < 1000 →
      Manager.updateLocation st lat lng =
        Manager.optimizeGeofenceRegions
          { st with currentLocation := some ⟨lat, lng⟩ } ⟨lat, lng⟩) := by
  constructor <;> intro h <;>
    simp only [Manager.updateLocation, hprev] <;>
    [rw [if_pos h]; rw [if_neg h]]

/-- Witness for `managerUpdateLocation_spec`: a 611 m step (0 → 0.0055° of
longitude on the equator) does not trigger re-optimization. -/
theorem managerUpdateLocation_spec_witness :
    Manager.updateLocation ⟨some ⟨0, 0⟩, [], [], none⟩ 0 0.0055 =
      ⟨some ⟨0, 0.0055⟩, [], [], none⟩ :=
  (managerUpdateLocation_spec ⟨some ⟨0, 0⟩, [], [], none⟩ 0 0.0055 ⟨0, 0⟩
    rfl).1
    (by
      rw [equator_eval 0 0.0055 0.0055 (Or.inl (by norm_num)) (by norm_num)
        (by norm_num)]
      nlinarith [Real.pi_lt_d2])

/-- A station on the equator `0.094°` of longitude west of the origin
(≈ 10.45 km away from it), with no polygon. -/
def stationFar : Station :=
  { id := 4, latitude := 0, longitude := -0.094, polygon_data := .parseFailure,
    lineYamanote := false, lineChuoSobu := false, lineKeihinTohoku := false,
    lineTokaido := false, nameMajor := false }

/-- The three-update run of the manager used against the trigger claim:
first update at the origin (optimizes — no previous location), a 611 m
step to longitude `0.0055` (skipped), then a 1112 m step back to longitude
`-0.0045` (optimizes), ending only ≈ 500 m from the origin, where the last
optimization ran. -/
noncomputable def mgrSt1 : Manager.ManagerState :=
  Manager.updateLocation ⟨none, [], [stationFar], none⟩ 0 0

noncomputable def mgrSt2 : Manager.ManagerState :=
  Manager.updateLocation mgrSt1 0 0.0055

noncomputable def mgrSt3 : Manager.ManagerState :=
  Manager.updateLocation mgrSt2 0 (-0.0045)

lemma optimize_regions_far (st : Manager.ManagerState) (loc : GeoPoint)
    (hcat : st.allStations = [stationFar])
    (hfar : ¬ calculateDistance loc.latitude loc.longitude 0 (-0.094) ≤
      Manager.OPTIMIZATION_RADIUS) :
    Manager.optimizeGeofenceRegions st loc =
      ⟨st.currentLocation, [], st.allStations, some loc⟩ := by
  simp only [Manager.optimizeGeofenceRegions, hcat, List.map_cons, List.map_nil,
    stationFar]
  rw [List.filter_cons]
  simp only [decide_eq_true_eq, hfar, if_false, List.filter_nil,
    List.mergeSort_nil, Manager.prioritizeStations, List.map_nil,
    List.take_nil]

lemma optimize_regions_near (st : Manager.ManagerState) (loc : GeoPoint)
    (hcat : st.allStations = [stationFar])
    (hnear : calculateDistance loc.latitude loc.longitude 0 (-0.094) ≤
      Manager.OPTIMIZATION_RADIUS) :
    ((Manager.optimizeGeofenceRegions st loc).activeRegions).length = 1 := by
  simp only [Manager.optimizeGeofenceRegions, hcat, List.map_cons, List.map_nil,
    stationFar]
  rw [List.filter_cons]
  simp only [decide_eq_true_eq, hnear, if_true, List.filter_nil,
    List.mergeSort_singleton, Manager.prioritizeStations, List.map_cons,
    List.map_nil]
  rw [List.take_of_length_le
    (by simp [Manager.getMaxRegions, Manager.MAX_IOS_REGIONS])]
  simp

lemma mgrSt1_eq :
    mgrSt1 = ⟨some ⟨0, 0⟩, [], [stationFar], some ⟨0, 0⟩⟩ := by
  have hfar : ¬ calculateDistance (0 : ℝ) 0 0 (-0.094) ≤
      Manager.OPTIMIZATION_RADIUS := by
    rw [equator_eval 0 (-0.094) 0.094 (Or.inr (by norm_num)) (by norm_num)
      (by norm_num)]
    simp only [Manager.OPTIMIZATION_RADIUS]
    push_neg
    nlinarith [Real.pi_gt_d2]
  rw [mgrSt1]
  simp only [Manager.updateLocation]
  rw [optimize_regions_far _ ⟨0, 0⟩ rfl hfar]

lemma mgrSt2_eq :
    mgrSt2 = ⟨some ⟨0, 0.0055⟩, [], [stationFar], some ⟨0, 0⟩⟩ := by
  rw [mgrSt2, mgrSt1_eq]
  exact (managerUpdateLocation_spec _ 0 0.0055 ⟨0, 0⟩ rfl).1
    (by
      rw [equator_eval 0 0.0055 0.0055 (Or.inl (by norm_num)) (by norm_num)
        (by norm_num)]
      nlinarith [Real.pi_lt_d2])

/-- C8 (counterexample): after the run `mgrSt1, mgrSt2`, the last
optimization happened at the origin and the third update lands only
≈ 500 m (≤ 1000 m, "within 1 km") from it — yet the re-optimization pass
runs (the step from the PREVIOUS update is ≥ 1000 m) and the registered
region set changes from `[]` to a one-region set. -/
theorem managerTrigger_counterexample :
    mgrSt2.lastOptLocation = some ⟨0, 0⟩ ∧
    calculateDistance 0 0 0 (-0.0045) ≤ 1000 ∧
    mgrSt2.activeRegions = [] ∧
    mgrSt3.activeRegions ≠ mgrSt2.activeRegions := by
  have hAC : calculateDistance (0 : ℝ) 0 0 (-0.0045) ≤ 1000 := by
    rw [equator_eval 0 (-0.0045) 0.0045 (Or.inr (by norm_num)) (by norm_num)
      (by norm_num)]
    nlinarith [Real.pi_lt_d2]
  have hBC : ¬ calculateDistance (0 : ℝ) 0.0055 0 (-0.0045) < 1000 := by
    rw [equator_eval 0.0055 (-0.0045) 0.01 (Or.inr (by norm_num)) (by norm_num)
      (by norm_num)]
    push_neg
    nlinarith [Real.pi_gt_d2]
  have hCS : calculateDistance (0 : ℝ) (-0.0045) 0 (-0.094) ≤
      Manager.OPTIMIZATION_RADIUS := by
    rw [equator_eval (-0.0045) (-0.094) 0.0895 (Or.inr (by norm_num))
      (by norm_num) (by norm_num)]
    simp only [Manager.OPTIMIZATION_RADIUS]
    nlinarith [Real.pi_lt_d2]
  have h3 : mgrSt3.activeRegions.length = 1 := by
    rw [mgrSt3, mgrSt2_eq]
    rw [(managerUpdateLocation_spec _ 0 (-0.0045) ⟨0, 0.0055⟩ rfl).2 hBC]
    exact optimize_regions_near _ ⟨0, -0.0045⟩ rfl hCS
  refine ⟨by rw [mgrSt2_eq], hAC, by rw [mgrSt2_eq], ?_⟩
  intro hcontra
  rw [mgrSt2_eq] at hcontra
  rw [hcontra] at h3
  simp at h3

end StationTracker
